import Mathlib

/-!
Shallow embedding of the things3-cli snapshot/rollback core:

* `src/db/snapshot-repo.ts` — the snapshot store over SQLite, modelled as a
  pure state type `DbState` holding the four tables as lists in insertion
  (rowid) order.
* `src/services/snapshot-manager.ts` — snapshot creation and
  `getRollbackPlan`.
* `src/commands/rollback.ts` — the rollback executor.
* `src/core/rate-limiter.ts` — the sliding-window rate limiter.

Times (`Date.now()`, SQLite `datetime('now')`) are modelled as `Int`
millisecond values threaded explicitly.  JSON serialization of the opaque
`previousState` record (`JSON.stringify` / `JSON.parse` from the JS runtime,
external to the repository) is modelled by an abstract codec passed as an
argument; the store column itself holds the serialized `String` exactly as
in the TEXT column.
-/

namespace Things3

/-- `SnapshotStatus` from `src/types/snapshot.ts`:
`'active' | 'rolled-back' | 'partial-rollback' | 'expired'`. -/
inductive SnapStatus where
  | active
  | rolledBack
  | partialRollback
  | expired
deriving DecidableEq, Repr

/-- `ItemType` from `src/types/snapshot.ts`: `'to-do' | 'project'`. -/
inductive ItemType where
  | todo
  | project
deriving DecidableEq, Repr

/-- Render an `ItemType` the way the TS string union prints. -/
def ItemType.toText : ItemType → String
  | .todo => "to-do"
  | .project => "project"

/-- A primitive JSON value (enough for the payloads this code stores:
`Record<string, unknown>` objects whose values are primitives). -/
inductive Json where
  | null
  | bool (b : Bool)
  | num (n : Int)
  | str (s : String)
deriving DecidableEq, Repr

/-- A JS object (`Record<string, unknown>`): ordered key/value pairs. -/
abbrev Rec := List (String × Json)

/-- The external JSON codec (`JSON.stringify` / `JSON.parse` of the JS
runtime; not code of this repository). -/
structure JsonCodec where
  stringifyRec : Rec → String
  stringifyFields : List String → String
  parseRec : String → Rec

/-- Row of the `snapshots` table (`createSnapshotsTable` in
`src/db/migrations.ts`): `status` defaults to `'active'`, `created_at`
defaults to insert time, `rolled_back_at` is nullable. -/
structure SnapshotRow where
  id : String
  description : String
  operationType : String
  command : String
  createdAt : Int
  rolledBackAt : Option Int
  status : SnapStatus
deriving DecidableEq, Repr

/-- Row of the `snapshot_created` table. -/
structure CreatedRow where
  rowId : Nat
  snapshotId : String
  thingsId : String
  itemType : ItemType
  title : String
  parentId : Option String
deriving DecidableEq, Repr

/-- Row of the `snapshot_modified` table; `previousState` and
`modifiedFields` are the serialized TEXT columns. -/
structure ModifiedRow where
  rowId : Nat
  snapshotId : String
  thingsId : String
  itemType : ItemType
  previousState : String
  modifiedFields : String
deriving DecidableEq, Repr

/-- Row of the `snapshot_status` table. -/
structure StatusRow where
  rowId : Nat
  snapshotId : String
  thingsId : String
  itemType : ItemType
  previousStatus : String
  newStatus : String
deriving DecidableEq, Repr

/-- The SQLite database state: the four tables (lists in rowid/insertion
order) plus the next INTEGER PRIMARY KEY value of each child table. -/
structure DbState where
  snapshots : List SnapshotRow
  created : List CreatedRow
  modified : List ModifiedRow
  statusChanges : List StatusRow
  nextCreatedId : Nat
  nextModifiedId : Nat
  nextStatusId : Nat
deriving DecidableEq, Repr

/-- A freshly migrated, empty database. -/
def emptyDb : DbState := ⟨[], [], [], [], 1, 1, 1⟩

/-- `CreateSnapshotInput` from `src/types/snapshot.ts`. -/
structure CreateSnapshotInput where
  description : String
  operationType : String
  command : String
deriving DecidableEq, Repr

/-- One `db.run(INSERT ...)` call: a single-statement state change. -/
abbrev DbOp := DbState → DbState

/-- The INSERT in `SnapshotRepository.createSnapshot`: parent row with
column defaults `status='active'`, `created_at=now`, `rolled_back_at` NULL. -/
def insertSnapshotRow (input : CreateSnapshotInput) (id : String) (now : Int) : DbOp :=
  fun s =>
    { s with snapshots :=
        s.snapshots ++ [⟨id, input.description, input.operationType, input.command, now, none, .active⟩] }

/-- The INSERT in `SnapshotRepository.addSnapshotCreated`. -/
def addSnapshotCreatedOp (snapshotId thingsId : String) (itemType : ItemType)
    (title : String) (parentId : Option String) : DbOp :=
  fun s =>
    { s with
      created := s.created ++ [⟨s.nextCreatedId, snapshotId, thingsId, itemType, title, parentId⟩]
      nextCreatedId := s.nextCreatedId + 1 }

/-- The INSERT in `SnapshotRepository.addSnapshotModified`; the caller has
already serialized `previousState` and `modifiedFields`. -/
def addSnapshotModifiedOp (snapshotId thingsId : String) (itemType : ItemType)
    (previousState modifiedFields : String) : DbOp :=
  fun s =>
    { s with
      modified := s.modified ++ [⟨s.nextModifiedId, snapshotId, thingsId, itemType, previousState, modifiedFields⟩]
      nextModifiedId := s.nextModifiedId + 1 }

/-- The INSERT in `SnapshotRepository.addSnapshotStatus`. -/
def addSnapshotStatusOp (snapshotId thingsId : String) (itemType : ItemType)
    (previousStatus newStatus : String) : DbOp :=
  fun s =>
    { s with
      statusChanges := s.statusChanges ++ [⟨s.nextStatusId, snapshotId, thingsId, itemType, previousStatus, newStatus⟩]
      nextStatusId := s.nextStatusId + 1 }

/-- `SnapshotRepository.getSnapshot`: `SELECT ... WHERE id = ?`, first row
or null. -/
def getSnapshot (s : DbState) (id : String) : Option SnapshotRow :=
  s.snapshots.find? fun r => r.id == id

/-- `SnapshotDetails`: parent plus the three child collections. -/
structure SnapshotDetails where
  snapshot : SnapshotRow
  createdItems : List CreatedRow
  modifiedItems : List ModifiedRow
  statusChanges : List StatusRow
deriving DecidableEq, Repr

/-- `SnapshotRepository.getSnapshotDetails`: parent or null, plus all three
child tables filtered by `snapshot_id` in rowid order. -/
def getSnapshotDetails (s : DbState) (id : String) : Option SnapshotDetails :=
  match getSnapshot s id with
  | none => none
  | some snap =>
      some ⟨snap,
        s.created.filter fun r => r.snapshotId == id,
        s.modified.filter fun r => r.snapshotId == id,
        s.statusChanges.filter fun r => r.snapshotId == id⟩

/-- The per-row effect of the UPDATE statement in
`SnapshotRepository.updateSnapshotStatus`: overwrite `status` and
`rolled_back_at`, leaving every other column unchanged. -/
def applyStatusUpdate (status : SnapStatus) (rolledBackAt : Option Int) (r : SnapshotRow) :
    SnapshotRow :=
  { r with status := status, rolledBackAt := rolledBackAt }

/-- `SnapshotRepository.updateSnapshotStatus`: unconditional
`UPDATE snapshots SET status = ?, rolled_back_at = ? WHERE id = ?`;
`rolled_back_at` is the current time for the two rollback outcomes and NULL
otherwise. -/
def updateSnapshotStatus (s : DbState) (id : String) (status : SnapStatus) (now : Int) : DbState :=
  let rolledBackAt : Option Int :=
    if status = .rolledBack ∨ status = .partialRollback then some now else none
  { s with snapshots :=
      s.snapshots.map fun r =>
        if r.id == id then applyStatusUpdate status rolledBackAt r else r }

/-- `SnapshotManager.markRolledBack`: thin pass-through to
`updateSnapshotStatus` (TS restricts the argument type to the two rollback
outcomes; the write itself is unconditional). -/
def markRolledBack (s : DbState) (snapshotId : String) (status : SnapStatus) (now : Int) : DbState :=
  updateSnapshotStatus s snapshotId status now

/-! ### Snapshot creation (SnapshotManager)

Each `create*Snapshot` method is a straight-line sequence of repository
calls, each performing exactly one `db.run(INSERT ...)`.  We embed each
method as the ordered list of its INSERT effects so that failure of an
individual INSERT (an exception from the storage engine) can be modelled;
none of these methods uses `withTransaction`. -/

/-- `AddSnapshotData` from `src/services/snapshot-manager.ts`. -/
structure AddSnapshotData where
  title : String
  itemType : ItemType
  thingsId : String
  parentId : Option String
  command : String
deriving DecidableEq, Repr

/-- `UpdateSnapshotData` (the `previousState` record is still structured
here; the repository serializes it on insert). -/
structure UpdateSnapshotData where
  thingsId : String
  itemType : ItemType
  previousState : Rec
  modifiedFields : List String
  command : String
deriving DecidableEq, Repr

/-- `StatusChangeData`. -/
structure StatusChangeData where
  thingsId : String
  itemType : ItemType
  title : String
  previousStatus : String
  newStatus : String
  command : String
deriving DecidableEq, Repr

/-- Element of `BulkSnapshotData.createdItems`. -/
structure BulkCreatedItem where
  thingsId : String
  itemType : ItemType
  title : String
  parentId : Option String
deriving DecidableEq, Repr

/-- Element of `BulkSnapshotData.modifiedItems`. -/
structure BulkModifiedItem where
  thingsId : String
  itemType : ItemType
  previousState : Rec
  modifiedFields : List String
deriving DecidableEq, Repr

/-- Element of `BulkSnapshotData.statusChanges`. -/
structure BulkStatusChange where
  thingsId : String
  itemType : ItemType
  previousStatus : String
  newStatus : String
deriving DecidableEq, Repr

/-- `BulkSnapshotData`. -/
structure BulkSnapshotData where
  command : String
  createdItems : List BulkCreatedItem
  modifiedItems : List BulkModifiedItem
  statusChanges : List BulkStatusChange
deriving DecidableEq, Repr

/-- `SnapshotManager.createAddSnapshot`: parent INSERT then one created-item
INSERT. -/
def createAddSnapshotOps (data : AddSnapshotData) (id : String) (now : Int) : List DbOp :=
  let itemTypeText := data.itemType.toText
  let title := data.title
  [insertSnapshotRow ⟨s!"Added {itemTypeText} \"{title}\"", "add", data.command⟩ id now,
   addSnapshotCreatedOp id data.thingsId data.itemType data.title data.parentId]

/-- `SnapshotManager.createAddProjectSnapshot`: parent INSERT then one
created-item INSERT with the item type forced to `project`. -/
def createAddProjectSnapshotOps (data : AddSnapshotData) (id : String) (now : Int) : List DbOp :=
  let title := data.title
  [insertSnapshotRow ⟨s!"Added project \"{title}\"", "add-project", data.command⟩ id now,
   addSnapshotCreatedOp id data.thingsId .project data.title data.parentId]

/-- `SnapshotManager.createUpdateSnapshot`: parent INSERT then one
modified-item INSERT (payloads serialized by the codec, as
`addSnapshotModified` does with `JSON.stringify`). -/
def createUpdateSnapshotOps (codec : JsonCodec) (data : UpdateSnapshotData) (id : String) (now : Int) :
    List DbOp :=
  let itemTypeText := data.itemType.toText
  let thingsId := data.thingsId
  [insertSnapshotRow ⟨s!"Updated {itemTypeText} {thingsId}", "update", data.command⟩ id now,
   addSnapshotModifiedOp id data.thingsId data.itemType
     (codec.stringifyRec data.previousState) (codec.stringifyFields data.modifiedFields)]

/-- `SnapshotManager.createStatusChangeSnapshot`: operation type is
`complete` when `newStatus` is `'completed'` and `cancel` otherwise; parent
INSERT then one status-change INSERT. -/
def createStatusChangeSnapshotOps (data : StatusChangeData) (id : String) (now : Int) : List DbOp :=
  let operationType := if data.newStatus == "completed" then "complete" else "cancel"
  let verb := if data.newStatus == "completed" then "Completed" else "Canceled"
  let itemTypeText := data.itemType.toText
  let title := data.title
  [insertSnapshotRow ⟨s!"{verb} {itemTypeText} \"{title}\"", operationType, data.command⟩ id now,
   addSnapshotStatusOp id data.thingsId data.itemType data.previousStatus data.newStatus]

/-- `SnapshotManager.createBulkSnapshot`: parent INSERT (operation type
`json`, description reporting the total item count) followed by one INSERT
per created item, per modified item, and per status change, in that order. -/
def createBulkSnapshotOps (codec : JsonCodec) (data : BulkSnapshotData) (id : String) (now : Int) :
    List DbOp :=
  let itemCount := data.createdItems.length + data.modifiedItems.length + data.statusChanges.length
  insertSnapshotRow ⟨s!"Bulk operation: {itemCount} items", "json", data.command⟩ id now
    :: (data.createdItems.map fun it => addSnapshotCreatedOp id it.thingsId it.itemType it.title it.parentId)
    ++ (data.modifiedItems.map fun it =>
          addSnapshotModifiedOp id it.thingsId it.itemType
            (codec.stringifyRec it.previousState) (codec.stringifyFields it.modifiedFields))
    ++ (data.statusChanges.map fun it =>
          addSnapshotStatusOp id it.thingsId it.itemType it.previousStatus it.newStatus)

/-- Running a sequence of single INSERT statements to completion (the
success path of the manager's creation methods). -/
def applyOps (ops : List DbOp) (s : DbState) : DbState :=
  ops.foldl (fun st op => op st) s

/-- Running a sequence of single INSERT statements when the `k`-th statement
(0-based, per the fault map `fails`) raises: statements run in order, each
committing individually (SQLite autocommit — there is no surrounding
transaction in the manager); the first failing statement aborts the
sequence, leaving everything already executed in place.  `Except.error`
carries the database state at the moment of the exception. -/
def runSeq (fails : Nat → Bool) : List DbOp → Nat → DbState → Except DbState DbState
  | [], _, s => .ok s
  | op :: rest, k, s =>
      if fails k then .error s else runSeq fails rest (k + 1) (op s)

/-- `withTransaction` from `src/db/connection.ts`: BEGIN, run the body,
COMMIT on success; on an exception ROLLBACK (restoring the initial state)
and rethrow. -/
def withTransactionSeq (fails : Nat → Bool) (ops : List DbOp) (s : DbState) :
    Except DbState DbState :=
  match runSeq fails ops 0 s with
  | .ok s1 => .ok s1
  | .error _ => .error s

/-! ### Rollback plan (SnapshotManager.getRollbackPlan) -/

/-- `RollbackAction.action` from `src/services/snapshot-manager.ts`:
`'cancel' | 'restore' | 'revert-status'`. -/
inductive ActionKind where
  | cancel
  | restore
  | revertStatus
deriving DecidableEq, Repr

/-- `RollbackAction`: the optional `data` record is the parsed previous
state (restore) or `{previousStatus}` (revert-status). -/
structure RollbackAction where
  action : ActionKind
  thingsId : String
  itemType : ItemType
  data : Option Rec
deriving DecidableEq, Repr

/-- `RollbackPlan`. -/
structure RollbackPlan where
  snapshotId : String
  operationType : String
  description : String
  actions : List RollbackAction
  warnings : List String
deriving DecidableEq, Repr

/-- The warning pushed for a status change whose `newStatus` is
`'canceled'`. -/
def cancelWarning (thingsId : String) : String :=
  s!"Item {thingsId} was canceled. Cancellation is irreversible in Things."

/-- The `cancel` action pushed for a created-item row. -/
def cancelActionOf (it : CreatedRow) : RollbackAction :=
  ⟨.cancel, it.thingsId, it.itemType, none⟩

/-- The `restore` action pushed for a modified-item row: carries
`JSON.parse(item.previousState)`. -/
def restoreActionOf (parseRec : String → Rec) (it : ModifiedRow) : RollbackAction :=
  ⟨.restore, it.thingsId, it.itemType, some (parseRec it.previousState)⟩

/-- The `revert-status` action pushed for a status-change row: carries
`{previousStatus: item.previousStatus}`. -/
def revertActionOf (it : StatusRow) : RollbackAction :=
  ⟨.revertStatus, it.thingsId, it.itemType, some [("previousStatus", Json.str it.previousStatus)]⟩

/-- Loop body for the status-change loop of `getRollbackPlan`. -/
def statusStep (acc : List RollbackAction × List String) (it : StatusRow) :
    List RollbackAction × List String :=
  if it.newStatus == "canceled" then
    (acc.1, acc.2 ++ [cancelWarning it.thingsId])
  else
    (acc.1 ++ [revertActionOf it], acc.2)

/-- The three accumulation loops in `getRollbackPlan`, translated
push-by-push: cancel actions for created items, then restore actions for
modified items (with the parsed previous state), then, per status change,
either a warning (`newStatus === 'canceled'`) or a revert-status action. -/
def planOfDetails (parseRec : String → Rec) (d : SnapshotDetails) :
    List RollbackAction × List String :=
  let actions1 : List RollbackAction :=
    d.createdItems.foldl (fun acc it => acc ++ [cancelActionOf it]) []
  let actions2 : List RollbackAction :=
    d.modifiedItems.foldl (fun acc it => acc ++ [restoreActionOf parseRec it]) actions1
  d.statusChanges.foldl statusStep (actions2, ([] : List String))

/-- `SnapshotManager.getRollbackPlan`: null when the snapshot does not
exist or its status is not `active`; otherwise the accumulated actions and
warnings. -/
def getRollbackPlan (parseRec : String → Rec) (s : DbState) (snapshotId : String) :
    Option RollbackPlan :=
  match getSnapshotDetails s snapshotId with
  | none => none
  | some d =>
      if d.snapshot.status ≠ .active then none
      else
        let aw := planOfDetails parseRec d
        some ⟨d.snapshot.id, d.snapshot.operationType, d.snapshot.description, aw.1, aw.2⟩

/-! ### Rollback executor (rollbackCommand in src/commands/rollback.ts) -/

/-- `ExecutionResult` as the rollback loop consumes it: `{success,
error?}`. -/
structure ClientResult where
  success : Bool
  error : Option String
deriving DecidableEq, Repr

/-- A command dispatched through the `ThingsClient` during rollback. -/
inductive DispatchCall where
  | cancelTodo (id : String)
  | updateTodo (id : String) (data : Rec)
deriving DecidableEq, Repr

/-- The external `ThingsClient` used by the executor: each call either
returns an `ExecutionResult` or throws (modelled as `Except.error` with the
thrown message). -/
structure Client where
  cancelTodo : String → Except String ClientResult
  updateTodo : String → Rec → Except String ClientResult

/-- Accumulated outcome of the rollback loop: `itemsRolledBack`,
`itemsFailed`, the per-action error messages, and the commands dispatched. -/
structure ExecOutcome where
  itemsRolledBack : Nat
  itemsFailed : Nat
  errors : List String
  dispatches : List DispatchCall
deriving DecidableEq, Repr

/-- Empty accumulator (loop entry). -/
def ExecOutcome.empty : ExecOutcome := ⟨0, 0, [], []⟩

/-- Accumulator combination: counts add, error and dispatch lists append in
order. -/
def ExecOutcome.merge (a b : ExecOutcome) : ExecOutcome :=
  ⟨a.itemsRolledBack + b.itemsRolledBack, a.itemsFailed + b.itemsFailed,
   a.errors ++ b.errors, a.dispatches ++ b.dispatches⟩

/-- `action.data?.previousStatus === 'open'`. -/
def dataPrevStatusIsOpen (data : Option Rec) : Bool :=
  match data with
  | none => false
  | some r =>
      match (r.find? fun p => p.1 == "previousStatus").map Prod.snd with
      | some (Json.str s) => s == "open"
      | _ => false

/-- One iteration of the rollback loop in `rollbackCommand`:
* `cancel` dispatches `client.cancelTodo`;
* `restore` dispatches `client.updateTodo` when `data` is present, else
  leaves `result` undefined;
* `revert-status` dispatches nothing: previous status `'open'` pushes the
  descriptive cannot-revert error and continues, any other previous status
  falls through with `result` undefined;
* an undefined or unsuccessful `result` counts the action as failed with
  `result?.error ?? "Failed to rollback <id>"`; a thrown error is caught
  and its message recorded. -/
def execAction (client : Client) (a : RollbackAction) : ExecOutcome :=
  match a.action with
  | .cancel =>
      match client.cancelTodo a.thingsId with
      | .error msg => ⟨0, 1, [msg], [.cancelTodo a.thingsId]⟩
      | .ok r =>
          if r.success then ⟨1, 0, [], [.cancelTodo a.thingsId]⟩
          else ⟨0, 1, [r.error.getD ("Failed to rollback " ++ a.thingsId)], [.cancelTodo a.thingsId]⟩
  | .restore =>
      match a.data with
      | some d =>
          match client.updateTodo a.thingsId d with
          | .error msg => ⟨0, 1, [msg], [.updateTodo a.thingsId d]⟩
          | .ok r =>
              if r.success then ⟨1, 0, [], [.updateTodo a.thingsId d]⟩
              else ⟨0, 1, [r.error.getD ("Failed to rollback " ++ a.thingsId)], [.updateTodo a.thingsId d]⟩
      | none => ⟨0, 1, ["Failed to rollback " ++ a.thingsId], []⟩
  | .revertStatus =>
      if dataPrevStatusIsOpen a.data then
        ⟨0, 1, ["Cannot revert status for " ++ a.thingsId ++ " - status changes are difficult to reverse"], []⟩
      else
        ⟨0, 1, ["Failed to rollback " ++ a.thingsId], []⟩

/-- The whole rollback loop: actions processed in order, accumulators
additive. -/
def execActions (client : Client) : List RollbackAction → ExecOutcome
  | [] => .empty
  | a :: rest => (execAction client a).merge (execActions client rest)

/-- `RollbackResult` from `src/types/snapshot.ts`. -/
structure RollbackResult where
  success : Bool
  snapshotId : String
  itemsRolledBack : Nat
  itemsFailed : Nat
  errors : List String
deriving DecidableEq, Repr

/-- `RollbackCommandResult` from `src/commands/rollback.ts`. -/
structure RollbackCommandResult where
  success : Bool
  snapshotId : String
  plan : Option RollbackPlan
  result : Option RollbackResult
  error : Option String
  warnings : Option (List String)
deriving DecidableEq, Repr

/-- `rollbackCommand`: auth check; plan computation; the not-found /
already-rolled-back / cannot-create error triage when there is no plan;
early return of the plan in dry-run mode; otherwise the execution loop
followed by `markRolledBack` with `rolled-back` on zero failures and
`partial-rollback` otherwise.  Returns the command result, the database
state afterwards, and the list of dispatched commands. -/
def rollbackCommand (parseRec : String → Rec) (client : Client)
    (authToken : Option String) (dryRun : Bool) (now : Int)
    (s : DbState) (snapshotId : String) :
    RollbackCommandResult × DbState × List DispatchCall :=
  match authToken with
  | none =>
      (⟨false, snapshotId, none, none,
        some "Authentication required. Run \"things3 auth setup <token>\" first.", none⟩, s, [])
  | some _ =>
      match getRollbackPlan parseRec s snapshotId with
      | none =>
          match getSnapshot s snapshotId with
          | none =>
              (⟨false, snapshotId, none, none, some ("Snapshot not found: " ++ snapshotId), none⟩, s, [])
          | some snapshot =>
              if snapshot.status ≠ .active then
                (⟨false, snapshotId, none, none,
                  some ("Snapshot already rolled back: " ++ snapshotId), none⟩, s, [])
              else
                (⟨false, snapshotId, none, none, some "Cannot create rollback plan", none⟩, s, [])
      | some plan =>
          if dryRun then
            (⟨true, snapshotId, some plan, none, none, some plan.warnings⟩, s, [])
          else
            let o := execActions client plan.actions
            let status : SnapStatus := if o.itemsFailed = 0 then .rolledBack else .partialRollback
            let s1 := markRolledBack s snapshotId status now
            (⟨o.itemsFailed == 0, snapshotId, some plan,
              some ⟨o.itemsFailed == 0, snapshotId, o.itemsRolledBack, o.itemsFailed, o.errors⟩,
              none, some plan.warnings⟩, s1, o.dispatches)

/-! ### Rate limiter (src/core/rate-limiter.ts) -/

/-- `RATE_LIMIT_MAX_CALLS` from `src/config.ts`. -/
def RATE_LIMIT_MAX_CALLS : Nat := 250

/-- `RATE_LIMIT_WINDOW_MS` from `src/config.ts`. -/
def RATE_LIMIT_WINDOW_MS : Int := 10000

/-- `RateLimiter` state: the configured budget and the recorded call
timestamps (milliseconds, `Date.now()` values, in push order). -/
structure RateLimiter where
  maxCalls : Nat
  windowMs : Int
  calls : List Int
deriving DecidableEq, Repr

/-- `new RateLimiter()` with the default configuration. -/
def RateLimiter.default : RateLimiter :=
  ⟨RATE_LIMIT_MAX_CALLS, RATE_LIMIT_WINDOW_MS, []⟩

/-- `cleanup()`: keep only timestamps strictly inside the trailing window
(`timestamp > now - windowMs`). -/
def RateLimiter.cleanup (rl : RateLimiter) (now : Int) : RateLimiter :=
  { rl with calls := rl.calls.filter fun t => t > now - rl.windowMs }

/-- `canAcquire()`: after cleanup, fewer recorded calls than `maxCalls`. -/
def RateLimiter.canAcquire (rl : RateLimiter) (now : Int) : Bool :=
  ((rl.cleanup now).calls.length < rl.maxCalls : Bool)

/-- `getWaitTime()`: 0 when under budget, otherwise milliseconds until the
oldest in-window timestamp leaves the window (floored at 0). -/
def RateLimiter.getWaitTime (rl : RateLimiter) (now : Int) : Int :=
  let c := rl.cleanup now
  if c.calls.length < c.maxCalls then 0
  else
    match c.calls.head? with
    | none => 0
    | some oldest => max 0 (oldest + c.windowMs - now)

/-- The message of the capacity-exceeded error thrown by `acquire()`
(`Math.ceil` of a non-negative millisecond value divided by 1000). -/
def RateLimiter.limitMessage (rl : RateLimiter) (now : Int) : String :=
  let m := rl.maxCalls
  let secs := rl.windowMs / 1000
  let waitSecs := (rl.getWaitTime now + 999) / 1000
  s!"Rate limit exceeded: {m} calls per {secs} seconds. Wait {waitSecs} seconds."

/-- `acquire()`: cleanup, throw the capacity-exceeded error when the
in-window count has reached `maxCalls`, otherwise push the current
timestamp. -/
def RateLimiter.acquire (rl : RateLimiter) (now : Int) : Except String RateLimiter :=
  let c := rl.cleanup now
  if c.maxCalls ≤ c.calls.length then .error (rl.limitMessage now)
  else .ok { c with calls := c.calls ++ [now] }

/-- `getCount()`. -/
def RateLimiter.getCount (rl : RateLimiter) (now : Int) : Nat :=
  (rl.cleanup now).calls.length

/-- `getRemainingCapacity()`: `maxCalls - count`, floored at 0 (`Nat`
subtraction). -/
def RateLimiter.getRemainingCapacity (rl : RateLimiter) (now : Int) : Nat :=
  rl.maxCalls - (rl.cleanup now).calls.length

/-- `reset()`. -/
def RateLimiter.reset (rl : RateLimiter) : RateLimiter :=
  { rl with calls := [] }

/-- `n` consecutive `acquire()` calls at the same instant, stopping at the
first failure. -/
def acquireN (now : Int) : Nat → RateLimiter → Except String RateLimiter
  | 0, rl => .ok rl
  | n + 1, rl =>
      match rl.acquire now with
      | .error e => .error e
      | .ok rl1 => acquireN now n rl1

/-! ### Helper lemmas -/

/-- A push-append fold produces the accumulator followed by the mapped
list. -/
lemma foldl_push_eq_map {α β : Type} (f : α → β) (l : List α) :
    ∀ acc : List β, l.foldl (fun a x => a ++ [f x]) acc = acc ++ l.map f := by
  induction l with
  | nil => intro acc; simp
  | cons x t ih => intro acc; simp [ih]

/-- The status-change loop splits into revert actions for the non-canceled
rows and warnings for the canceled rows, each in row order. -/
lemma foldl_statusStep_eq (l : List StatusRow) :
    ∀ acc : List RollbackAction × List String,
      l.foldl statusStep acc
        = (acc.1 ++ (l.filter fun it => !(it.newStatus == "canceled")).map revertActionOf,
           acc.2 ++ (l.filter fun it => it.newStatus == "canceled").map
             fun it => cancelWarning it.thingsId) := by
  induction l with
  | nil => intro acc; simp
  | cons x t ih =>
      intro acc
      cases hb : x.newStatus == "canceled" <;>
        simp [statusStep, hb, ih, List.filter_cons]

/-- Closed form of `planOfDetails`. -/
lemma planOfDetails_eq (parseRec : String → Rec) (d : SnapshotDetails) :
    planOfDetails parseRec d
      = (d.createdItems.map cancelActionOf
           ++ d.modifiedItems.map (restoreActionOf parseRec)
           ++ (d.statusChanges.filter fun it => !(it.newStatus == "canceled")).map revertActionOf,
         (d.statusChanges.filter fun it => it.newStatus == "canceled").map
           fun it => cancelWarning it.thingsId) := by
  unfold planOfDetails
  simp only [foldl_push_eq_map, foldl_statusStep_eq]
  simp

/-- `getRollbackPlan` on an existing, active snapshot. -/
lemma getRollbackPlan_of_active {s : DbState} {id : String} {d : SnapshotDetails}
    (parseRec : String → Rec)
    (hd : getSnapshotDetails s id = some d) (ha : d.snapshot.status = .active) :
    getRollbackPlan parseRec s id
      = some ⟨d.snapshot.id, d.snapshot.operationType, d.snapshot.description,
              (planOfDetails parseRec d).1, (planOfDetails parseRec d).2⟩ := by
  unfold getRollbackPlan
  rw [hd]
  simp [ha]

/-- `getSnapshotDetails` is `none` exactly when `getSnapshot` is. -/
lemma getSnapshotDetails_none_iff (s : DbState) (id : String) :
    getSnapshotDetails s id = none ↔ getSnapshot s id = none := by
  unfold getSnapshotDetails
  cases h : getSnapshot s id <;> simp

/-- Inversion for a produced plan. -/
lemma getRollbackPlan_some_elim {parseRec : String → Rec} {s : DbState} {id : String}
    {p : RollbackPlan} (hp : getRollbackPlan parseRec s id = some p) :
    ∃ d, getSnapshotDetails s id = some d ∧ d.snapshot.status = .active ∧
      p = ⟨d.snapshot.id, d.snapshot.operationType, d.snapshot.description,
           (planOfDetails parseRec d).1, (planOfDetails parseRec d).2⟩ := by
  unfold getRollbackPlan at hp
  cases h : getSnapshotDetails s id with
  | none => rw [h] at hp; cases hp
  | some d =>
      rw [h] at hp
      by_cases ha : d.snapshot.status = .active
      · refine ⟨d, rfl, ha, ?_⟩
        simp [ha] at hp
        exact hp.symm
      · simp [ha] at hp

/-- `getRollbackPlan` is `none` exactly for missing or non-active
snapshots. -/
lemma getRollbackPlan_none_iff (parseRec : String → Rec) (s : DbState) (id : String) :
    getRollbackPlan parseRec s id = none
      ↔ (getSnapshot s id = none ∨ ∃ r, getSnapshot s id = some r ∧ r.status ≠ .active) := by
  unfold getRollbackPlan getSnapshotDetails
  cases h : getSnapshot s id with
  | none => simp
  | some r =>
      by_cases ha : r.status = .active <;> simp [ha]

/-- `find?` by id commutes with the per-row conditional update of
`updateSnapshotStatus` (the update never changes the `id` column). -/
lemma find?_conditional_update (l : List SnapshotRow) (id : String) (st : SnapStatus)
    (rba : Option Int) :
    (l.map fun r => if r.id == id then applyStatusUpdate st rba r else r).find?
        (fun r => r.id == id)
      = (l.find? fun r => r.id == id).map (applyStatusUpdate st rba) := by
  rw [List.find?_map]
  have hpf : ((fun r => r.id == id) ∘ fun r => if r.id == id then applyStatusUpdate st rba r else r)
      = fun r : SnapshotRow => r.id == id := by
    funext r
    by_cases h : r.id = id <;> simp [applyStatusUpdate, h]
  rw [hpf]
  cases hf : l.find? (fun r => r.id == id) with
  | none => rfl
  | some r =>
      have hid : r.id = id := by simpa using List.find?_some hf
      simp [hid]

/-- `getSnapshot` of the updated id after `updateSnapshotStatus`. -/
lemma getSnapshot_updateSnapshotStatus (s : DbState) (id : String) (st : SnapStatus) (now : Int) :
    getSnapshot (updateSnapshotStatus s id st now) id
      = (getSnapshot s id).map
          (applyStatusUpdate st
            (if st = .rolledBack ∨ st = .partialRollback then some now else none)) := by
  unfold getSnapshot updateSnapshotStatus
  exact find?_conditional_update s.snapshots id st _

/-- Each loop iteration classifies its action exactly once and pushes
exactly one error message when and only when the action failed. -/
lemma execAction_count (client : Client) (a : RollbackAction) :
    (execAction client a).itemsRolledBack + (execAction client a).itemsFailed = 1 ∧
    (execAction client a).errors.length = (execAction client a).itemsFailed := by
  rcases a with ⟨k, tid, ty, data⟩
  cases k with
  | cancel =>
      cases hc : client.cancelTodo tid with
      | error msg => simp [execAction, hc]
      | ok r => cases hs : r.success <;> simp [execAction, hc, hs]
  | restore =>
      cases data with
      | none => simp [execAction]
      | some d =>
          cases hc : client.updateTodo tid d with
          | error msg => simp [execAction, hc]
          | ok r => cases hs : r.success <;> simp [execAction, hc, hs]
  | revertStatus =>
      cases ho : dataPrevStatusIsOpen data <;> simp [execAction, ho]

/-- The loop attempts every action: classifications sum to the plan length
and errors match the failure count. -/
lemma execActions_count (client : Client) (as : List RollbackAction) :
    (execActions client as).itemsRolledBack + (execActions client as).itemsFailed = as.length ∧
    (execActions client as).errors.length = (execActions client as).itemsFailed := by
  induction as with
  | nil => simp [execActions, ExecOutcome.empty]
  | cons a t ih =>
      have h := execAction_count client a
      refine ⟨?_, ?_⟩
      · simp only [execActions, ExecOutcome.merge, List.length_cons]
        omega
      · simp only [execActions, ExecOutcome.merge, List.length_append, h.2, ih.2]

/-- Failures only accumulate along the loop. -/
lemma execAction_failed_le_of_mem (client : Client) {a : RollbackAction} :
    ∀ {as : List RollbackAction}, a ∈ as →
      (execAction client a).itemsFailed ≤ (execActions client as).itemsFailed := by
  intro as
  induction as with
  | nil => intro h; cases h
  | cons b t ih =>
      intro h
      rcases List.mem_cons.mp h with rfl | hmem
      · simp only [execActions, ExecOutcome.merge]
        omega
      · have := ih hmem
        simp only [execActions, ExecOutcome.merge]
        omega

/-- A `revert-status` iteration never dispatches, always fails, and pushes
the descriptive error exactly when the stored previous status is `'open'`. -/
lemma execAction_revertStatus (client : Client) (a : RollbackAction)
    (hk : a.action = .revertStatus) :
    (execAction client a).dispatches = [] ∧
    (execAction client a).itemsRolledBack = 0 ∧
    (execAction client a).itemsFailed = 1 ∧
    (execAction client a).errors =
      (if dataPrevStatusIsOpen a.data then
        ["Cannot revert status for " ++ a.thingsId ++ " - status changes are difficult to reverse"]
      else
        ["Failed to rollback " ++ a.thingsId]) := by
  rcases a with ⟨k, tid, ty, data⟩
  cases hk
  cases ho : dataPrevStatusIsOpen data <;> simp [execAction, ho]

/-- Unfolding of the non-dry-run execution branch of `rollbackCommand`. -/
lemma rollbackCommand_exec (parseRec : String → Rec) (client : Client) (tok : String)
    (now : Int) (s : DbState) (snapshotId : String) (p : RollbackPlan)
    (hp : getRollbackPlan parseRec s snapshotId = some p) :
    rollbackCommand parseRec client (some tok) false now s snapshotId
      = (⟨(execActions client p.actions).itemsFailed == 0, snapshotId, some p,
          some ⟨(execActions client p.actions).itemsFailed == 0, snapshotId,
                (execActions client p.actions).itemsRolledBack,
                (execActions client p.actions).itemsFailed,
                (execActions client p.actions).errors⟩,
          none, some p.warnings⟩,
         markRolledBack s snapshotId
           (if (execActions client p.actions).itemsFailed = 0 then .rolledBack else .partialRollback)
           now,
         (execActions client p.actions).dispatches) := by
  unfold rollbackCommand
  rw [hp]
  rfl

/-! ### Concrete instances used by witnesses and counterexamples -/

/-- A trivial parse function standing in for `JSON.parse` in concrete
runs. -/
def parse0 : String → Rec := fun _ => []

/-- A trivial codec standing in for `JSON.stringify`/`JSON.parse` in
concrete runs. -/
def codec0 : JsonCodec := ⟨fun _ => "{}", fun _ => "[]", fun _ => []⟩

/-- A client whose dispatches all succeed. -/
def clientOk : Client := ⟨fun _ => .ok ⟨true, none⟩, fun _ _ => .ok ⟨true, none⟩⟩

/-- A database holding one active snapshot `s1` with one created item, one
modified item, and two status changes (one to `completed`, one to
`canceled`). -/
def dbMixed : DbState :=
  ⟨[⟨"s1", "desc", "json", "cmd", 0, none, .active⟩],
   [⟨1, "s1", "c1", .todo, "T", none⟩],
   [⟨1, "s1", "m1", .todo, "{}", "[]"⟩],
   [⟨1, "s1", "x1", .todo, "open", "completed"⟩,
    ⟨2, "s1", "x2", .todo, "open", "canceled"⟩],
   2, 2, 3⟩

/-- The details record stored for `s1` in `dbMixed`. -/
def dMixed : SnapshotDetails :=
  ⟨⟨"s1", "desc", "json", "cmd", 0, none, .active⟩,
   [⟨1, "s1", "c1", .todo, "T", none⟩],
   [⟨1, "s1", "m1", .todo, "{}", "[]"⟩],
   [⟨1, "s1", "x1", .todo, "open", "completed"⟩,
    ⟨2, "s1", "x2", .todo, "open", "canceled"⟩]⟩

/-- The rollback plan computed for `s1` in `dbMixed`. -/
def planMixed : RollbackPlan :=
  ⟨"s1", "json", "desc",
   [⟨.cancel, "c1", .todo, none⟩,
    ⟨.restore, "m1", .todo, some []⟩,
    ⟨.revertStatus, "x1", .todo, some [("previousStatus", Json.str "open")]⟩],
   [cancelWarning "x2"]⟩

/-- A database holding one active snapshot `s1` with no child rows. -/
def dbSingle : DbState := ⟨[⟨"s1", "d", "add", "cmd", 0, none, .active⟩], [], [], [], 1, 1, 1⟩

/-! ### The claims -/

/-- C1: for every snapshot whose status is `active`, `getRollbackPlan`
returns a plan with exactly one `cancel` action per created-item row, one
`restore` action per modified-item row whose data is the parsed stored
previous-state payload, one `revert-status` action per status-change row
whose new status is not `canceled`, and one irreversibility warning per
status-change row whose new status is `canceled`; within each category the
actions follow the insertion order of the child rows. -/
theorem c1_rollback_plan_structure (parseRec : String → Rec) (s : DbState) (id : String)
    (d : SnapshotDetails) (hd : getSnapshotDetails s id = some d)
    (ha : d.snapshot.status = .active) :
    getRollbackPlan parseRec s id
      = some ⟨d.snapshot.id, d.snapshot.operationType, d.snapshot.description,
          d.createdItems.map cancelActionOf
            ++ d.modifiedItems.map (restoreActionOf parseRec)
            ++ ((d.statusChanges.filter fun it => !(it.newStatus == "canceled")).map revertActionOf),
          (d.statusChanges.filter fun it => it.newStatus == "canceled").map
            fun it => cancelWarning it.thingsId⟩ := by
  rw [getRollbackPlan_of_active parseRec hd ha, planOfDetails_eq]

/-- Witness for C1 on `dbMixed`. -/
theorem c1_rollback_plan_structure_witness :
    getRollbackPlan parse0 dbMixed "s1" = some planMixed :=
  (c1_rollback_plan_structure parse0 dbMixed "s1" dMixed rfl rfl).trans (by rfl)

/-- C3: `getRollbackPlan` returns null exactly when the snapshot is missing
or its status is not `active`; in particular after
`markRolledBack(id, 'rolled-back')` on an existing snapshot it returns
null. -/
theorem c3_plan_null_iff (parseRec : String → Rec) (s : DbState) (id : String) (now : Int) :
    (getRollbackPlan parseRec s id = none
       ↔ getSnapshot s id = none ∨ ∃ r, getSnapshot s id = some r ∧ r.status ≠ .active) ∧
    (∀ r, getSnapshot s id = some r →
       getRollbackPlan parseRec (markRolledBack s id .rolledBack now) id = none) := by
  refine ⟨getRollbackPlan_none_iff parseRec s id, ?_⟩
  intro r hr
  rw [getRollbackPlan_none_iff]
  right
  refine ⟨applyStatusUpdate .rolledBack (some now) r, ?_, by simp [applyStatusUpdate]⟩
  unfold markRolledBack
  rw [getSnapshot_updateSnapshotStatus, hr]
  rfl

/-- Witness for C3: rolling back `s1` in `dbMixed` removes its plan. -/
theorem c3_plan_null_iff_witness :
    getRollbackPlan parse0 (markRolledBack dbMixed "s1" .rolledBack 7) "s1" = none :=
  (c3_plan_null_iff parse0 dbMixed "s1" 7).2 ⟨"s1", "desc", "json", "cmd", 0, none, .active⟩ rfl

/-- Counterexample to C6 as stated: in `dbMixed` the child rows number
1 + 1 + 2 = 4 but the plan holds only 3 actions, because the status change
to `canceled` contributes a warning instead of an action. -/
theorem c6_action_count_counterexample :
    (getRollbackPlan parse0 dbMixed "s1").map (fun p => p.actions.length) = some 3 ∧
    (getSnapshotDetails dbMixed "s1").map
        (fun d => d.createdItems.length + d.modifiedItems.length + d.statusChanges.length)
      = some 4 :=
  ⟨rfl, rfl⟩

/-- C6 amended: the plan's action count equals created-item rows plus
modified-item rows plus only those status-change rows whose new status is
not `canceled`. -/
theorem c6_action_count_formula (parseRec : String → Rec) (s : DbState) (id : String)
    (p : RollbackPlan) (hp : getRollbackPlan parseRec s id = some p) :
    ∃ d, getSnapshotDetails s id = some d ∧
      p.actions.length
        = d.createdItems.length + d.modifiedItems.length
            + (d.statusChanges.filter fun it => !(it.newStatus == "canceled")).length := by
  obtain ⟨d, hd, ha, rfl⟩ := getRollbackPlan_some_elim hp
  refine ⟨d, hd, ?_⟩
  rw [planOfDetails_eq]
  simp
  omega

/-- Witness for the amended C6 on `dbMixed`. -/
theorem c6_action_count_formula_witness :
    ∃ d, getSnapshotDetails dbMixed "s1" = some d ∧
      planMixed.actions.length
        = d.createdItems.length + d.modifiedItems.length
            + (d.statusChanges.filter fun it => !(it.newStatus == "canceled")).length :=
  c6_action_count_formula parse0 dbMixed "s1" planMixed rfl

/-- C2: in a non-dry-run rollback over an existing plan, every action is
classified exactly once (successes plus failures equal the plan length,
with one error message per failure), the result's success flag is
`itemsFailed == 0`, and the snapshot is marked `rolled-back` on zero
failures and `partial-rollback` otherwise. -/
theorem c2_rollback_execution_aggregate (parseRec : String → Rec) (client : Client)
    (tok : String) (now : Int) (s : DbState) (id : String) (p : RollbackPlan)
    (hp : getRollbackPlan parseRec s id = some p) :
    ∃ res : RollbackResult,
      (rollbackCommand parseRec client (some tok) false now s id).1.result = some res ∧
      res.itemsRolledBack + res.itemsFailed = p.actions.length ∧
      res.errors.length = res.itemsFailed ∧
      res.success = (res.itemsFailed == 0) ∧
      getSnapshot (rollbackCommand parseRec client (some tok) false now s id).2.1 id
        = (getSnapshot s id).map
            (applyStatusUpdate
              (if res.itemsFailed = 0 then .rolledBack else .partialRollback)
              (some now)) := by
  refine ⟨⟨(execActions client p.actions).itemsFailed == 0, id,
           (execActions client p.actions).itemsRolledBack,
           (execActions client p.actions).itemsFailed,
           (execActions client p.actions).errors⟩, ?_, ?_, ?_, rfl, ?_⟩
  · rw [rollbackCommand_exec parseRec client tok now s id p hp]
  · exact (execActions_count client p.actions).1
  · exact (execActions_count client p.actions).2
  · rw [rollbackCommand_exec parseRec client tok now s id p hp]
    unfold markRolledBack
    rw [getSnapshot_updateSnapshotStatus]
    by_cases hf : (execActions client p.actions).itemsFailed = 0 <;> simp [hf]

/-- Witness for C2 on `dbMixed` with an all-succeeding client (the
revert-status action still fails). -/
theorem c2_rollback_execution_aggregate_witness :
    ∃ res : RollbackResult,
      (rollbackCommand parse0 clientOk (some "t") false 9 dbMixed "s1").1.result = some res ∧
      res.itemsRolledBack + res.itemsFailed = planMixed.actions.length ∧
      res.errors.length = res.itemsFailed ∧
      res.success = (res.itemsFailed == 0) ∧
      getSnapshot (rollbackCommand parse0 clientOk (some "t") false 9 dbMixed "s1").2.1 "s1"
        = (getSnapshot dbMixed "s1").map
            (applyStatusUpdate
              (if res.itemsFailed = 0 then .rolledBack else .partialRollback)
              (some 9)) :=
  c2_rollback_execution_aggregate parse0 clientOk "t" 9 dbMixed "s1" planMixed rfl

/-- C9: a dry-run rollback of an active snapshot returns the plan and its
warnings, dispatches no commands, and leaves the database state (and so the
snapshot's status and rolledBackAt) unchanged. -/
theorem c9_dry_run_pure (parseRec : String → Rec) (client : Client) (tok : String)
    (now : Int) (s : DbState) (id : String) (p : RollbackPlan)
    (hp : getRollbackPlan parseRec s id = some p) :
    rollbackCommand parseRec client (some tok) true now s id
      = (⟨true, id, some p, none, none, some p.warnings⟩, s, []) := by
  unfold rollbackCommand
  rw [hp]
  rfl

/-- Witness for C9 on `dbMixed`. -/
theorem c9_dry_run_pure_witness :
    rollbackCommand parse0 clientOk (some "t") true 9 dbMixed "s1"
      = (⟨true, "s1", some planMixed, none, none, some planMixed.warnings⟩, dbMixed, []) := by
  rw [c9_dry_run_pure parse0 clientOk "t" 9 dbMixed "s1" planMixed
        c1_rollback_plan_structure_witness]

/-- Counterexample to C5 as stated: `updateSnapshotStatus` writes
unconditionally, so a snapshot already in the terminal status
`rolled-back` is moved to the different value `expired` (its rolledBackAt
is also cleared) by a later Store call. -/
theorem c5_status_monotonic_counterexample :
    getSnapshot (markRolledBack dbSingle "s1" .rolledBack 5) "s1"
      = some ⟨"s1", "d", "add", "cmd", 0, some 5, .rolledBack⟩ ∧
    getSnapshot
        (updateSnapshotStatus (markRolledBack dbSingle "s1" .rolledBack 5) "s1" .expired 6) "s1"
      = some ⟨"s1", "d", "add", "cmd", 0, none, .expired⟩ :=
  ⟨rfl, rfl⟩

/-- C5 amended: terminal statuses are not protected at the Store/Manager
level (`updateSnapshotStatus` overwrites any status); at-most-once rollback
holds at the command level: `rollbackCommand` on a snapshot whose status is
not `active` reports it as already rolled back and leaves the database
unchanged, dispatching nothing. -/
theorem c5_command_level_at_most_once (parseRec : String → Rec) (client : Client)
    (tok : String) (dryRun : Bool) (now : Int) (s : DbState) (id : String)
    (r : SnapshotRow) (hr : getSnapshot s id = some r) (hterm : r.status ≠ .active) :
    rollbackCommand parseRec client (some tok) dryRun now s id
      = (⟨false, id, none, none, some ("Snapshot already rolled back: " ++ id), none⟩, s, []) := by
  have hnone : getRollbackPlan parseRec s id = none :=
    (getRollbackPlan_none_iff parseRec s id).mpr (Or.inr ⟨r, hr, hterm⟩)
  unfold rollbackCommand
  rw [hnone, hr]
  simp [hterm]

/-- Witness for the amended C5: re-running the rollback command on the
rolled-back `s1` changes nothing. -/
theorem c5_command_level_at_most_once_witness :
    rollbackCommand parse0 clientOk (some "t") false 9 (markRolledBack dbSingle "s1" .rolledBack 5) "s1"
      = (⟨false, "s1", none, none, some ("Snapshot already rolled back: " ++ "s1"), none⟩,
         markRolledBack dbSingle "s1" .rolledBack 5, []) :=
  c5_command_level_at_most_once parse0 clientOk "t" false 9
    (markRolledBack dbSingle "s1" .rolledBack 5) "s1"
    ⟨"s1", "d", "add", "cmd", 0, some 5, .rolledBack⟩ rfl (by decide)

/-- The rolledBackAt/status correspondence of a snapshot row. -/
def rolledBackAtInv (r : SnapshotRow) : Prop :=
  r.rolledBackAt ≠ none ↔ (r.status = .rolledBack ∨ r.status = .partialRollback)

/-- C8: after any `updateSnapshotStatus` call, every snapshot row satisfies
"rolledBackAt is non-null iff status is rolled-back or partial-rollback"
(provided the rows satisfied it before, which creation establishes), and
the updated row in particular carries the new status with rolledBackAt
stamped to the current time for the two rollback outcomes and cleared to
null otherwise. -/
theorem c8_rolled_back_at_iff (s : DbState) (id : String) (st : SnapStatus) (now : Int)
    (hinv : ∀ r ∈ s.snapshots, rolledBackAtInv r) :
    (∀ r ∈ (updateSnapshotStatus s id st now).snapshots, rolledBackAtInv r) ∧
    (∀ r ∈ (updateSnapshotStatus s id st now).snapshots, r.id = id →
       r.status = st ∧
       r.rolledBackAt
         = (if st = .rolledBack ∨ st = .partialRollback then some now else none)) := by
  constructor
  · intro r hr
    simp only [updateSnapshotStatus] at hr
    rcases List.mem_map.mp hr with ⟨orig, ho, hfo⟩
    by_cases h : orig.id = id
    · have hb : (orig.id == id) = true := by simp [h]
      rw [← hfo]
      simp only [hb, if_true, applyStatusUpdate, rolledBackAtInv]
      by_cases hst : st = .rolledBack ∨ st = .partialRollback <;> simp [hst]
    · have hb : (orig.id == id) = false := by simp [h]
      rw [← hfo]
      simp only [hb, Bool.false_eq_true, if_false]
      exact hinv orig ho
  · intro r hr hid
    simp only [updateSnapshotStatus] at hr
    rcases List.mem_map.mp hr with ⟨orig, ho, hfo⟩
    by_cases h : orig.id = id
    · have hb : (orig.id == id) = true := by simp [h]
      rw [← hfo]
      simp [hb, applyStatusUpdate]
    · have hb : (orig.id == id) = false := by simp [h]
      rw [← hfo] at hid
      simp [hb] at hid
      exact absurd hid h

/-- Witness for C8 on `dbSingle` with a `partial-rollback` update. -/
theorem c8_rolled_back_at_iff_witness :
    (∀ r ∈ (updateSnapshotStatus dbSingle "s1" .partialRollback 5).snapshots, rolledBackAtInv r) ∧
    (∀ r ∈ (updateSnapshotStatus dbSingle "s1" .partialRollback 5).snapshots, r.id = "s1" →
       r.status = .partialRollback ∧
       r.rolledBackAt
         = (if SnapStatus.partialRollback = .rolledBack ∨ SnapStatus.partialRollback = .partialRollback
            then some 5 else none)) :=
  c8_rolled_back_at_iff dbSingle "s1" .partialRollback 5 (by
    intro r hr
    simp only [dbSingle, List.mem_singleton] at hr
    subst hr
    simp [rolledBackAtInv])

/-- C10: every `revert-status` action of a plan dispatches no command and
is counted as a failure — with the descriptive cannot-revert error when the
stored previous status is `open` and the generic error otherwise — so a
non-dry-run rollback of a plan containing one is always finalized as
`partial-rollback`. -/
theorem c10_revert_status_always_fails (parseRec : String → Rec) (client : Client)
    (tok : String) (now : Int) (s : DbState) (id : String) (p : RollbackPlan)
    (a : RollbackAction) (hp : getRollbackPlan parseRec s id = some p)
    (ha : a ∈ p.actions) (hk : a.action = .revertStatus) :
    (execAction client a).dispatches = [] ∧
    (execAction client a).itemsRolledBack = 0 ∧
    (execAction client a).itemsFailed = 1 ∧
    (∀ st : String, a.data = some [("previousStatus", Json.str st)] →
       (st = "open" →
          (execAction client a).errors
            = ["Cannot revert status for " ++ a.thingsId
                 ++ " - status changes are difficult to reverse"]) ∧
       (st ≠ "open" →
          (execAction client a).errors = ["Failed to rollback " ++ a.thingsId])) ∧
    0 < (execActions client p.actions).itemsFailed ∧
    getSnapshot (rollbackCommand parseRec client (some tok) false now s id).2.1 id
      = (getSnapshot s id).map (applyStatusUpdate .partialRollback (some now)) := by
  obtain ⟨hdisp, hrb, hfail, herr⟩ := execAction_revertStatus client a hk
  have hpos : 0 < (execActions client p.actions).itemsFailed := by
    have := execAction_failed_le_of_mem client ha
    omega
  refine ⟨hdisp, hrb, hfail, ?_, hpos, ?_⟩
  · intro st hdata
    have hopen : dataPrevStatusIsOpen a.data = (st == "open") := by
      rw [hdata]
      rfl
    constructor
    · intro hst
      rw [herr, hopen, hst]
      rfl
    · intro hst
      have : (st == "open") = false := by simp [hst]
      rw [herr, hopen, this]
      rfl
  · rw [rollbackCommand_exec parseRec client tok now s id p hp]
    unfold markRolledBack
    rw [getSnapshot_updateSnapshotStatus]
    have hne : ¬ (execActions client p.actions).itemsFailed = 0 := by omega
    simp [hne]

/-- Witness for C10: the revert-status action of `planMixed`. -/
theorem c10_revert_status_always_fails_witness :
    (execAction clientOk ⟨.revertStatus, "x1", .todo, some [("previousStatus", Json.str "open")]⟩).dispatches = [] ∧
    (execAction clientOk ⟨.revertStatus, "x1", .todo, some [("previousStatus", Json.str "open")]⟩).itemsRolledBack = 0 ∧
    (execAction clientOk ⟨.revertStatus, "x1", .todo, some [("previousStatus", Json.str "open")]⟩).itemsFailed = 1 ∧
    (∀ st : String,
       (⟨.revertStatus, "x1", .todo, some [("previousStatus", Json.str "open")]⟩ : RollbackAction).data
           = some [("previousStatus", Json.str st)] →
       (st = "open" →
          (execAction clientOk ⟨.revertStatus, "x1", .todo, some [("previousStatus", Json.str "open")]⟩).errors
            = ["Cannot revert status for " ++ "x1" ++ " - status changes are difficult to reverse"]) ∧
       (st ≠ "open" →
          (execAction clientOk ⟨.revertStatus, "x1", .todo, some [("previousStatus", Json.str "open")]⟩).errors
            = ["Failed to rollback " ++ "x1"])) ∧
    0 < (execActions clientOk planMixed.actions).itemsFailed ∧
    getSnapshot (rollbackCommand parse0 clientOk (some "t") false 9 dbMixed "s1").2.1 "s1"
      = (getSnapshot dbMixed "s1").map (applyStatusUpdate .partialRollback (some 9)) :=
  c10_revert_status_always_fails parse0 clientOk "t" 9 dbMixed "s1" planMixed
    ⟨.revertStatus, "x1", .todo, some [("previousStatus", Json.str "open")]⟩
    rfl (by decide) rfl

/-- A one-created-item bulk operation. -/
def c4Data : BulkSnapshotData := ⟨"cmd", [⟨"t-1", .todo, "Task", none⟩], [], []⟩

/-- A plain add operation. -/
def c4AddData : AddSnapshotData := ⟨"Task", .todo, "t-1", none, "cmd"⟩

/-- An update operation. -/
def c4UpdData : UpdateSnapshotData := ⟨"t-1", .todo, [("title", Json.str "Old")], ["title"], "cmd"⟩

/-- A status-change operation. -/
def c4StData : StatusChangeData := ⟨"t-1", .todo, "Task", "open", "completed", "cmd"⟩

/-- Fault map making the second INSERT (the child row) of the group
throw. -/
def c4Fails : Nat → Bool := fun k => k == 1

/-- The database state left behind by the failed bulk creation: parent row
committed, child table empty. -/
def c4PartialState : DbState :=
  ⟨[⟨"snap-1", "Bulk operation: 1 items", "json", "cmd", 0, none, .active⟩], [], [], [], 1, 1, 1⟩

/-- The database state left behind by the failed add creation: parent row
committed, child table empty. -/
def c4AddPartialState : DbState :=
  ⟨[⟨"snap-2", "Added to-do \"Task\"", "add", "cmd", 0, none, .active⟩], [], [], [], 1, 1, 1⟩

/-- Counterexample to C4 as stated: when the child-row INSERT of
`createBulkSnapshot` (or of `createAddSnapshot`) throws, the parent INSERT
is not undone — a reader then observes the parent snapshot with none of
its child rows.  (No creation path of the Manager invokes
`withTransaction`.) -/
theorem c4_atomic_creation_counterexample :
    runSeq c4Fails (createBulkSnapshotOps codec0 c4Data "snap-1" 0) 0 emptyDb
      = .error c4PartialState ∧
    c4PartialState ≠ emptyDb ∧
    getSnapshot c4PartialState "snap-1"
      = some ⟨"snap-1", "Bulk operation: 1 items", "json", "cmd", 0, none, .active⟩ ∧
    (getSnapshotDetails c4PartialState "snap-1").map (fun d => d.createdItems) = some [] ∧
    runSeq c4Fails (createAddSnapshotOps c4AddData "snap-2" 0) 0 emptyDb
      = .error c4AddPartialState ∧
    c4AddPartialState ≠ emptyDb ∧
    getSnapshot c4AddPartialState "snap-2"
      = some ⟨"snap-2", "Added to-do \"Task\"", "add", "cmd", 0, none, .active⟩ ∧
    (getSnapshotDetails c4AddPartialState "snap-2").map (fun d => d.createdItems) = some [] :=
  ⟨rfl, by decide, rfl, rfl, rfl, by decide, rfl, rfl⟩

/-- If a statement of a bare (untransacted) INSERT sequence throws, the
final state is the fold of a prefix of the sequence — nothing is undone. -/
lemma runSeq_error_persists (fails : Nat → Bool) :
    ∀ (ops : List DbOp) (k : Nat) (s s1 : DbState),
      runSeq fails ops k s = .error s1 →
      ∃ n, s1 = applyOps (ops.take n) s := by
  intro ops
  induction ops with
  | nil => intro k s s1 h; cases h
  | cons op rest ih =>
      intro k s s1 h
      by_cases hf : fails k
      · refine ⟨0, ?_⟩
        simp only [runSeq, hf, if_true, Except.error.injEq] at h
        simp [applyOps, h]
      · simp only [runSeq, hf, Bool.false_eq_true, if_false] at h
        obtain ⟨n, hn⟩ := ih (k + 1) (op s) s1 h
        exact ⟨n + 1, by simpa [applyOps] using hn⟩

/-- An INSERT group is run without a transaction: if a statement of the
group fails, the statements already executed persist (the final state is
the fold of a prefix of the group); wrapping the same group in
`withTransaction` would instead restore the initial state on an
exception. -/
def nonatomicOn (fails : Nat → Bool) (ops : List DbOp) (s : DbState) : Prop :=
  (∀ s1, runSeq fails ops 0 s = .error s1 → ∃ n, s1 = applyOps (ops.take n) s) ∧
  (∀ s2, withTransactionSeq fails ops s = .error s2 → s2 = s)

/-- Any bare INSERT sequence has the prefix-persists (no undo) behavior,
and only the `withTransaction` wrapper restores the initial state. -/
lemma nonatomicOn_of_runSeq (fails : Nat → Bool) (ops : List DbOp) (s : DbState) :
    nonatomicOn fails ops s := by
  constructor
  · intro s1 h
    exact runSeq_error_persists fails ops 0 s s1 h
  · intro s2 h
    unfold withTransactionSeq at h
    cases hr : runSeq fails ops 0 s with
    | ok s3 => rw [hr] at h; cases h
    | error s3 =>
        rw [hr] at h
        cases h
        rfl

/-- C4 amended: every snapshot-creating operation of the Manager
(`createAddSnapshot`, `createAddProjectSnapshot`, `createUpdateSnapshot`,
`createStatusChangeSnapshot`, `createBulkSnapshot`) runs its INSERTs
sequentially without a transaction, so if an INSERT of the group fails, the
INSERTs already performed (the parent row included) persist — the resulting
state is the fold of a prefix of the group; the `withTransaction` helper
would restore the initial state on an exception, but no creation path uses
it. -/
theorem c4_nonatomic_creation (fails : Nat → Bool) (codec : JsonCodec)
    (addData : AddSnapshotData) (updData : UpdateSnapshotData)
    (stData : StatusChangeData) (bulkData : BulkSnapshotData)
    (id : String) (now : Int) (s : DbState) :
    nonatomicOn fails (createAddSnapshotOps addData id now) s ∧
    nonatomicOn fails (createAddProjectSnapshotOps addData id now) s ∧
    nonatomicOn fails (createUpdateSnapshotOps codec updData id now) s ∧
    nonatomicOn fails (createStatusChangeSnapshotOps stData id now) s ∧
    nonatomicOn fails (createBulkSnapshotOps codec bulkData id now) s :=
  ⟨nonatomicOn_of_runSeq fails _ s, nonatomicOn_of_runSeq fails _ s,
   nonatomicOn_of_runSeq fails _ s, nonatomicOn_of_runSeq fails _ s,
   nonatomicOn_of_runSeq fails _ s⟩

/-- Witness for the amended C4: the failed concrete runs (an add and a bulk
creation, each with a throwing child INSERT) left exactly the one-INSERT
prefix — the parent row — behind. -/
theorem c4_nonatomic_creation_witness :
    (∃ n, c4AddPartialState
       = applyOps ((createAddSnapshotOps c4AddData "snap-2" 0).take n) emptyDb) ∧
    (∃ n, c4PartialState
       = applyOps ((createBulkSnapshotOps codec0 c4Data "snap-1" 0).take n) emptyDb) :=
  ⟨(c4_nonatomic_creation c4Fails codec0 c4AddData c4UpdData c4StData c4Data "snap-2" 0
       emptyDb).1.1 c4AddPartialState rfl,
   (c4_nonatomic_creation c4Fails codec0 c4AddData c4UpdData c4StData c4Data "snap-1" 0
       emptyDb).2.2.2.2.1 c4PartialState rfl⟩

/-- The limiter state after 250 successful default-configuration acquires
at time 0. -/
def rl250 : RateLimiter := ⟨250, 10000, List.replicate 250 0⟩

set_option maxRecDepth 40000 in
/-- C7: `acquire` throws the capacity-exceeded error exactly when the
timestamps still inside the trailing window have reached `maxCalls`, and
otherwise records exactly one new timestamp; `canAcquire` reports strictly
under budget; with the defaults (250 calls / 10000 ms), 250 acquires at one
instant succeed, the 251st fails, `canAcquire` then reports false, and once
the window has elapsed both behave as freshly constructed again. -/
theorem c7_rate_limiter_acquire :
    (∀ (rl : RateLimiter) (now : Int),
        rl.maxCalls ≤ (rl.cleanup now).calls.length →
        rl.acquire now = .error (rl.limitMessage now)) ∧
    (∀ (rl : RateLimiter) (now : Int),
        (rl.cleanup now).calls.length < rl.maxCalls →
        rl.acquire now = .ok ⟨rl.maxCalls, rl.windowMs, (rl.cleanup now).calls ++ [now]⟩) ∧
    (∀ (rl : RateLimiter) (now : Int),
        rl.canAcquire now = ((rl.cleanup now).calls.length < rl.maxCalls : Bool)) ∧
    acquireN 0 250 RateLimiter.default = .ok rl250 ∧
    rl250.acquire 0 = .error (rl250.limitMessage 0) ∧
    rl250.canAcquire 0 = false ∧
    rl250.canAcquire 10001 = true ∧
    rl250.acquire 10001 = RateLimiter.default.acquire 10001 := by
  refine ⟨?_, ?_, ?_, by rfl, by rfl, by rfl, by rfl, by rfl⟩
  · intro rl now h
    simp only [RateLimiter.acquire]
    rw [if_pos]
    exact h
  · intro rl now h
    simp only [RateLimiter.acquire]
    rw [if_neg]
    · rfl
    · show ¬ (rl.maxCalls ≤ (rl.cleanup now).calls.length)
      omega
  · intro rl now
    rfl

/-- Witness for C7: a fresh small limiter admits a call and records its
timestamp. -/
theorem c7_rate_limiter_acquire_witness :
    RateLimiter.acquire ⟨1, 10, ([] : List Int)⟩ 0 = .ok ⟨1, 10, [0]⟩ :=
  c7_rate_limiter_acquire.2.1 ⟨1, 10, ([] : List Int)⟩ 0 (by decide)

end Things3

